import Mathlib

/-
Verification of the control-panel audio indicator (src/main.rs).

The development shallowly embeds the audio-policy core of the program:
`load_icon`, `AudioManager::get_device` (the memoizing endpoint cache),
`WindowHelper::on_lock` / `on_unlock` (the two-flag lock policy),
`WindowHelper::on_paint` (the repaint path), and the OS notification
callbacks (`IMMNotificationClient` / `IAudioEndpointVolumeCallback`).

OS calls are modelled through a fixed environment `Env` describing, for
one point in time, which default device each role resolves to, each
device's properties, and which OS calls fail.  The mutable process state
(`SysState`) carries the device cache and the two unlock flags of
`AudioManager`, together with the OS-side live mute register of every
endpoint (in the program this lives in the audio driver and is read and
written through `IAudioEndpointVolume::GetMute` / `SetMute`).
Fallible operations return `Except Err`; every operation additionally
returns the updated state and a trace of the externally visible actions
it performed.
-/

/-- The two data-flow roles used by the program: `eRender` (output) and
`eCapture` (input), mirroring the `EDataFlow` values passed to
`GetDefaultAudioEndpoint`. -/
inductive EDataFlow where
  | eRender
  | eCapture
deriving DecidableEq, Repr

/-- Errors of the embedded operations.  The program uses `anyhow`
errors; the constructors here record the distinct failure points. -/
inductive Err where
  /-- `GetDefaultAudioEndpoint` failed: no default endpoint for the role. -/
  | deviceUnavailable
  /-- Some other OS API call returned failure. -/
  | osCallFailed
  /-- `parts.next()` returned `None` in `load_icon` (the
  `context("invalid icon path")` branch). -/
  | invalidIconPath
  /-- The icon index after the comma failed to parse as an `i32`. -/
  | iconIndexParseError
  /-- `CString::from_str` failed: interior NUL byte in the icon path. -/
  | nulInPath
deriving DecidableEq, Repr

/-- An icon handle, abstracted by its provenance: the result of
`ExtractIconExA(path, index)`. -/
structure Icon where
  path : String
  index : Int
deriving DecidableEq, Repr

/-- A cache entry of `AudioManager::devices`: the `AudioDevice` struct
(its `IAudioEndpointVolume` controls handle is identified by the device
id that owns the entry; the icon is stored explicitly). -/
structure AudioDevice where
  name : String
  icon : Icon
deriving DecidableEq, Repr

/-- The OS environment, fixed for the duration of the runs being
reasoned about: role resolution, per-device properties, and which OS
calls fail. -/
structure Env where
  /-- `GetDefaultAudioEndpoint flow eMultimedia`: `none` means the call
  fails (no default endpoint for the flow). -/
  defaultDevice : EDataFlow → Option String
  /-- `IMMDevice::OpenPropertyStore` fails for this device. -/
  openPropsFails : String → Bool
  /-- `IMMDevice::GetId` (or its UTF-16 decoding) fails for this device. -/
  getIdFails : String → Bool
  /-- `GetValue(PKEY_Device_FriendlyName)`: `none` means the call fails. -/
  nameProp : String → Option String
  /-- `GetValue(PKEY_DeviceClass_IconPath)`: `none` means the call fails. -/
  iconPathProp : String → Option String
  /-- `IMMDevice::Activate::<IAudioEndpointVolume>` fails. -/
  activateFails : String → Bool
  /-- `RegisterControlChangeNotify` fails. -/
  registerFails : String → Bool
  /-- `GetMute` fails for this device. -/
  getMuteFails : String → Bool
  /-- `SetMute` fails for this device. -/
  setMuteFails : String → Bool
  /-- `GetWindowRect` fails (start of `on_paint`). -/
  getWindowRectFails : Bool
  /-- `DrawIcon` fails. -/
  drawIconFails : Bool
  /-- `UpdateLayeredWindow` fails. -/
  updateLayeredWindowFails : Bool

/-- The mutable state: the fields of `AudioManager` that the policy core
reads and writes (`devices`, `unlock_mute_output`, `unlock_mute_input`),
plus `mute`, the OS-side live mute register of each endpoint, accessed
through `GetMute` / `SetMute`. -/
structure SysState where
  devices : List (String × AudioDevice)
  unlock_mute_output : Bool
  unlock_mute_input : Bool
  mute : String → Bool

/-- Externally visible actions, for stating trace properties. -/
inductive Event where
  /-- `OpenPropertyStore` was called for the device. -/
  | openProps (id : String)
  /-- `GetValue(PKEY_Device_FriendlyName)` was read. -/
  | readName (id : String)
  /-- `load_icon` ran for the device's icon descriptor. -/
  | loadIcon (id : String)
  /-- `Activate::<IAudioEndpointVolume>` was called. -/
  | activate (id : String)
  /-- `RegisterControlChangeNotify` was called. -/
  | subscribe (id : String)
  /-- `SetMute(v)` succeeded on the device. -/
  | setMute (id : String) (v : Bool)
  /-- `DrawIcon` drew the icon of the role's slot. -/
  | drawIcon (flow : EDataFlow)
  /-- The red cross-out lines were drawn over the role's slot. -/
  | drawMuteOverlay (flow : EDataFlow)
  /-- `UpdateLayeredWindow` committed the repaint. -/
  | updateWindow
  /-- `RedrawHandle::redraw` was invoked (invalidate + repaint request). -/
  | redraw
deriving DecidableEq, Repr

/-- Rust `str::split(",")` on the character list of a string: the list
of fragments between commas.  Always nonempty — splitting a comma-free
string (or the empty string) yields one fragment, the whole input. -/
def splitComma : List Char → List String
  | [] => [""]
  | c :: cs =>
    match splitComma cs with
    | [] => []
    | h :: t => if c = ',' then "" :: h :: t else String.mk (c :: h.data) :: t

/-- Accumulator loop for `parse_i32`: consume decimal digits, failing on
any non-digit character. -/
def parseDigits (acc : Nat) : List Char → Option Nat
  | [] => some acc
  | c :: cs =>
    if '0' ≤ c ∧ c ≤ '9' then parseDigits (acc * 10 + (c.toNat - 48)) cs
    else none

/-- Rust `str::parse::<i32>`: an optional single sign, then a nonempty
run of decimal digits, with the value within the `i32` range. -/
def parse_i32 (s : String) : Option Int :=
  let (neg, digits) :=
    match s.data with
    | '-' :: rest => (true, rest)
    | '+' :: rest => (false, rest)
    | l => (false, l)
  match digits with
  | [] => none
  | _ =>
    match parseDigits 0 digits with
    | none => none
    | some n =>
      let v : Int := if neg then -(n : Int) else (n : Int)
      if -2147483648 ≤ v ∧ v ≤ 2147483647 then some v else none

/-- `load_icon` (src/main.rs:245-266).  Splits the descriptor on `","`;
the first fragment is the path (`split` always yields at least one
fragment, so the `context("invalid icon path")` error is unreachable);
the second, when present, must parse as an `i32` index, defaulting to 0
when absent; the path must convert to a `CString` (no interior NUL).
`ExtractIconExA` itself is infallible in the source (its return value is
ignored), so a well-formed descriptor always yields an icon handle. -/
def load_icon (icon_path : String) : Except Err Icon :=
  let parts := splitComma icon_path.data
  match parts.head? with
  | none => .error .invalidIconPath
  | some path =>
    let index? : Option Int :=
      match parts[1]? with
      | some i => parse_i32 i
      | none => some 0
    match index? with
    | none => .error .iconIndexParseError
    | some index =>
      if path.data.any (fun c => c = Char.ofNat 0) then .error .nulInPath
      else .ok ⟨path, index⟩

/-- `AudioManager::get_default_device` (src/main.rs:193-201). -/
def get_default_device (env : Env) (flow : EDataFlow) : Except Err String :=
  match env.defaultDevice flow with
  | none => .error .deviceUnavailable
  | some id => .ok id

/-- `AudioManager::get_device` (src/main.rs:203-225).  Opens the
property store and reads the id unconditionally; when the id is not yet
cached, reads the friendly name and icon path, decodes the icon,
activates the volume controls, subscribes to change notifications, and
inserts the entry; otherwise returns the cached entry.  Any failure
propagates and (since the insert is last) leaves the cache unchanged. -/
def get_device (env : Env) (st : SysState) (id : String) :
    Except Err AudioDevice × SysState × List Event :=
  if env.openPropsFails id then (.error .osCallFailed, st, [])
  else if env.getIdFails id then (.error .osCallFailed, st, [.openProps id])
  else
    match st.devices.lookup id with
    | some dev => (.ok dev, st, [.openProps id])
    | none =>
      match env.nameProp id with
      | none => (.error .osCallFailed, st, [.openProps id])
      | some name =>
        match env.iconPathProp id with
        | none => (.error .osCallFailed, st, [.openProps id, .readName id])
        | some icon_path =>
          match load_icon icon_path with
          | .error e => (.error e, st, [.openProps id, .readName id, .loadIcon id])
          | .ok icon =>
            if env.activateFails id then
              (.error .osCallFailed, st, [.openProps id, .readName id, .loadIcon id])
            else if env.registerFails id then
              (.error .osCallFailed, st,
                [.openProps id, .readName id, .loadIcon id, .activate id])
            else
              (.ok ⟨name, icon⟩,
                { st with devices := (id, (⟨name, icon⟩ : AudioDevice)) :: st.devices },
                [.openProps id, .readName id, .loadIcon id, .activate id, .subscribe id])

/-- The `unlock_mute_output` / `unlock_mute_input` flag for a role. -/
def readFlag (st : SysState) (flow : EDataFlow) : Bool :=
  match flow with
  | .eRender => st.unlock_mute_output
  | .eCapture => st.unlock_mute_input

/-- Assign the `unlock_mute_output` / `unlock_mute_input` flag of a role. -/
def writeFlag (st : SysState) (flow : EDataFlow) (v : Bool) : SysState :=
  match flow with
  | .eRender => { st with unlock_mute_output := v }
  | .eCapture => { st with unlock_mute_input := v }

/-- One role's block of `WindowHelper::on_lock` (src/main.rs:341-347 for
`eRender`, 349-355 for `eCapture`; the source repeats the block
verbatim per role).  Resolve the default device of the role, track it,
and if `GetMute` reports unmuted, `SetMute(true)` and set the role's
flag.  Every `?` failure propagates immediately. -/
def on_lock_role (env : Env) (st : SysState) (flow : EDataFlow) :
    Except Err Unit × SysState × List Event :=
  match get_default_device env flow with
  | .error e => (.error e, st, [])
  | .ok id =>
    match get_device env st id with
    | (.error e, st1, tr1) => (.error e, st1, tr1)
    | (.ok _dev, st1, tr1) =>
      if env.getMuteFails id then (.error .osCallFailed, st1, tr1)
      else if st1.mute id = false then
        if env.setMuteFails id then (.error .osCallFailed, st1, tr1)
        else
          let st2 := { st1 with mute := Function.update st1.mute id true }
          (.ok (), writeFlag st2 flow true, tr1 ++ [.setMute id true])
      else (.ok (), st1, tr1)

/-- `WindowHelper::on_lock` (src/main.rs:340-358): the render block,
then — only when the render block succeeded (`?` short-circuits) — the
capture block. -/
def on_lock (env : Env) (st : SysState) :
    Except Err Unit × SysState × List Event :=
  match on_lock_role env st .eRender with
  | (.error e, st1, tr1) => (.error e, st1, tr1)
  | (.ok _, st1, tr1) =>
    match on_lock_role env st1 .eCapture with
    | (r, st2, tr2) => (r, st2, tr1 ++ tr2)

/-- One role's block of `WindowHelper::on_unlock` (src/main.rs:361-370
for `eRender`, 372-381 for `eCapture`).  When the role's flag is set:
resolve, track, read mute; if still muted, `SetMute(false)`; clear the
flag.  The flag assignment is last, so any `?` failure leaves it set. -/
def on_unlock_role (env : Env) (st : SysState) (flow : EDataFlow) :
    Except Err Unit × SysState × List Event :=
  if readFlag st flow then
    match get_default_device env flow with
    | .error e => (.error e, st, [])
    | .ok id =>
      match get_device env st id with
      | (.error e, st1, tr1) => (.error e, st1, tr1)
      | (.ok _dev, st1, tr1) =>
        if env.getMuteFails id then (.error .osCallFailed, st1, tr1)
        else if st1.mute id then
          if env.setMuteFails id then (.error .osCallFailed, st1, tr1)
          else
            let st2 := { st1 with mute := Function.update st1.mute id false }
            (.ok (), writeFlag st2 flow false, tr1 ++ [.setMute id false])
        else (.ok (), writeFlag st1 flow false, tr1)
  else (.ok (), st, [])

/-- `WindowHelper::on_unlock` (src/main.rs:360-384): the render block,
then — only when the render block succeeded — the capture block. -/
def on_unlock (env : Env) (st : SysState) :
    Except Err Unit × SysState × List Event :=
  match on_unlock_role env st .eRender with
  | (.error e, st1, tr1) => (.error e, st1, tr1)
  | (.ok _, st1, tr1) =>
    match on_unlock_role env st1 .eCapture with
    | (r, st2, tr2) => (r, st2, tr1 ++ tr2)

/-- One role's slot of `WindowHelper::on_paint` (src/main.rs:296-303 for
`eRender`, 305-312 for `eCapture`): resolve, track, `DrawIcon`, and when
`GetMute` reports muted draw the two cross-out lines.  Every `?`
failure propagates immediately. -/
def on_paint_role (env : Env) (st : SysState) (flow : EDataFlow) :
    Except Err Unit × SysState × List Event :=
  match get_default_device env flow with
  | .error e => (.error e, st, [])
  | .ok id =>
    match get_device env st id with
    | (.error e, st1, tr1) => (.error e, st1, tr1)
    | (.ok _dev, st1, tr1) =>
      if env.drawIconFails then (.error .osCallFailed, st1, tr1)
      else if env.getMuteFails id then
        (.error .osCallFailed, st1, tr1 ++ [.drawIcon flow])
      else if st1.mute id then
        (.ok (), st1, tr1 ++ [.drawIcon flow, .drawMuteOverlay flow])
      else (.ok (), st1, tr1 ++ [.drawIcon flow])

/-- `WindowHelper::on_paint` (src/main.rs:273-338), restricted to its
observable effects: `GetWindowRect` may fail first; then the render
slot, then the capture slot, then `UpdateLayeredWindow` commits the
frame.  Every `?` failure aborts the whole repaint. -/
def on_paint (env : Env) (st : SysState) :
    Except Err Unit × SysState × List Event :=
  if env.getWindowRectFails then (.error .osCallFailed, st, [])
  else
    match on_paint_role env st .eRender with
    | (.error e, st1, tr1) => (.error e, st1, tr1)
    | (.ok _, st1, tr1) =>
      match on_paint_role env st1 .eCapture with
      | (.error e, st2, tr2) => (.error e, st2, tr1 ++ tr2)
      | (.ok _, st2, tr2) =>
        if env.updateLayeredWindowFails then
          (.error .osCallFailed, st2, tr1 ++ tr2)
        else (.ok (), st2, tr1 ++ tr2 ++ [.updateWindow])

/-- `IMMNotificationClient::OnDeviceStateChanged` (src/main.rs:708-714):
the body is `Ok(())` — no redraw, no state access. -/
def onDeviceStateChanged (st : SysState) : SysState × List Event := (st, [])

/-- `IMMNotificationClient::OnDeviceAdded` (src/main.rs:716-718): the
body is `Ok(())` — no redraw, no state access. -/
def onDeviceAdded (st : SysState) : SysState × List Event := (st, [])

/-- `IMMNotificationClient::OnDeviceRemoved` (src/main.rs:720-722): the
body is `Ok(())` — no redraw, no state access. -/
def onDeviceRemoved (st : SysState) : SysState × List Event := (st, [])

/-- `IMMNotificationClient::OnDefaultDeviceChanged` (src/main.rs:724-733):
calls `self.redraw_handle.redraw()` and nothing else. -/
def onDefaultDeviceChanged (st : SysState) : SysState × List Event :=
  (st, [.redraw])

/-- `IMMNotificationClient::OnPropertyValueChanged` (src/main.rs:735-741):
the body is `Ok(())` — no redraw, no state access. -/
def onPropertyValueChanged (st : SysState) : SysState × List Event := (st, [])

/-- `IAudioEndpointVolumeCallback::OnNotify` (src/main.rs:749-758):
calls `self.redraw_handle.redraw()` and nothing else. -/
def onNotify (st : SysState) : SysState × List Event := (st, [.redraw])

deriving instance DecidableEq for Except

/-- A fully functional environment: the render role resolves to device
`"out"`, the capture role to device `"in"`, every OS call succeeds, and
both devices carry a well-formed icon descriptor. -/
def goodEnv : Env where
  defaultDevice := fun flow =>
    match flow with
    | .eRender => some "out"
    | .eCapture => some "in"
  openPropsFails := fun _ => false
  getIdFails := fun _ => false
  nameProp := fun _ => some "dev"
  iconPathProp := fun _ => some "icon.dll,3"
  activateFails := fun _ => false
  registerFails := fun _ => false
  getMuteFails := fun _ => false
  setMuteFails := fun _ => false
  getWindowRectFails := false
  drawIconFails := false
  updateLayeredWindowFails := false

/-- The state right after `AudioManager::new`: empty cache, both flags
false; every endpoint unmuted. -/
def initState : SysState where
  devices := []
  unlock_mute_output := false
  unlock_mute_input := false
  mute := fun _ => false

/-- `get_device` never touches the live mute registers. -/
lemma get_device_mute (env : Env) (st : SysState) (id : String) :
    (get_device env st id).2.1.mute = st.mute := by
  unfold get_device
  repeat' split
  all_goals rfl

/-- `get_device` never touches `unlock_mute_output`. -/
lemma get_device_flag_out (env : Env) (st : SysState) (id : String) :
    (get_device env st id).2.1.unlock_mute_output = st.unlock_mute_output := by
  unfold get_device
  repeat' split
  all_goals rfl

/-- `get_device` never touches `unlock_mute_input`. -/
lemma get_device_flag_in (env : Env) (st : SysState) (id : String) :
    (get_device env st id).2.1.unlock_mute_input = st.unlock_mute_input := by
  unfold get_device
  repeat' split
  all_goals rfl

/-- Case analysis of `get_device`: it either fails leaving the state
unchanged, returns a cached entry leaving the state unchanged, or
inserts a fresh entry after the full activation sequence. -/
lemma get_device_cases (env : Env) (st : SysState) (id : String) :
    (∃ e tr, get_device env st id = (.error e, st, tr)) ∨
    (∃ dev, st.devices.lookup id = some dev ∧
        get_device env st id = (.ok dev, st, [.openProps id])) ∨
    (∃ dev, st.devices.lookup id = none ∧
        get_device env st id =
          (.ok dev, { st with devices := (id, dev) :: st.devices },
            [.openProps id, .readName id, .loadIcon id, .activate id,
              .subscribe id])) := by
  unfold get_device
  repeat' split
  all_goals
    first
    | exact Or.inl ⟨_, _, rfl⟩
    | (refine Or.inr (Or.inl ⟨_, ?_, rfl⟩); assumption)
    | (refine Or.inr (Or.inr ⟨_, ?_, rfl⟩); assumption)

/-- On any failure, `get_device` leaves the state — in particular the
cache — exactly as it was (the insert is the last step). -/
lemma get_device_error_state (env : Env) (st : SysState) (id : String)
    (e : Err) (h : (get_device env st id).1 = .error e) :
    (get_device env st id).2.1 = st := by
  rcases get_device_cases env st id with ⟨e', tr, h1⟩ | ⟨dev, _, h1⟩ | ⟨dev, _, h1⟩
  · rw [h1]
  · rw [h1]
  · rw [h1] at h
    cases h

/-- `get_device` emits no `setMute` event. -/
lemma get_device_no_setMute (env : Env) (st : SysState) (id a : String)
    (b : Bool) : Event.setMute a b ∉ (get_device env st id).2.2 := by
  unfold get_device
  repeat' split
  all_goals simp

/-- After a successful `get_device`, the returned entry is cached under
the queried id. -/
lemma get_device_ok_cached (env : Env) (st : SysState) (id : String)
    (dev : AudioDevice) (h : (get_device env st id).1 = .ok dev) :
    (get_device env st id).2.1.devices.lookup id = some dev := by
  rcases get_device_cases env st id with ⟨e, tr, h1⟩ | ⟨dev', hc, h1⟩ |
    ⟨dev', hc, h1⟩
  · rw [h1] at h
    cases h
  · rw [h1] at h ⊢
    cases h
    exact hc
  · rw [h1] at h ⊢
    cases h
    simp [List.lookup]

/-- A successful `get_device` implies the unconditional per-call OS
steps (open property store, read id) succeed for this id in this
environment. -/
lemma get_device_ok_env (env : Env) (st : SysState) (id : String)
    (dev : AudioDevice) (h : (get_device env st id).1 = .ok dev) :
    env.openPropsFails id = false ∧ env.getIdFails id = false := by
  unfold get_device at h
  by_cases h1 : env.openPropsFails id = true
  · simp [h1] at h
  · by_cases h2 : env.getIdFails id = true
    · simp [h1, h2] at h
    · simp [Bool.not_eq_true] at h1 h2
      exact ⟨h1, h2⟩

/-- The cache only grows: an entry present before `get_device` is still
present, unchanged, afterwards. -/
lemma get_device_cache_mono (env : Env) (st : SysState) (id d : String)
    (v : AudioDevice) (h : st.devices.lookup d = some v) :
    (get_device env st id).2.1.devices.lookup d = some v := by
  rcases get_device_cases env st id with ⟨e, tr, h1⟩ | ⟨dev', hc, h1⟩ |
    ⟨dev', hc, h1⟩
  · rw [h1]
    exact h
  · rw [h1]
    exact h
  · rw [h1]
    simp only [List.lookup]
    rcases hdi : d == id with _ | _
    · simpa using h
    · exfalso
      rw [eq_of_beq hdi] at h
      rw [h] at hc
      cases hc

/-- `get_device` on an already-cached id (with the unconditional
property-store and id reads succeeding) returns the cached entry, keeps
the state unchanged, and performs none of the activation sequence. -/
lemma get_device_cached (env : Env) (st : SysState) (id : String)
    (dev : AudioDevice) (hc : st.devices.lookup id = some dev)
    (h1 : env.openPropsFails id = false) (h2 : env.getIdFails id = false) :
    get_device env st id = (.ok dev, st, [.openProps id]) := by
  unfold get_device
  simp [h1, h2, hc]

lemma readFlag_writeFlag_same (st : SysState) (flow : EDataFlow) (v : Bool) :
    readFlag (writeFlag st flow v) flow = v := by
  cases flow <;> rfl

lemma readFlag_writeFlag_other (st : SysState) (flow flow' : EDataFlow)
    (v : Bool) (h : flow ≠ flow') :
    readFlag (writeFlag st flow v) flow' = readFlag st flow' := by
  cases flow <;> cases flow' <;> first | rfl | exact absurd rfl h

lemma writeFlag_mute (st : SysState) (flow : EDataFlow) (v : Bool) :
    (writeFlag st flow v).mute = st.mute := by
  cases flow <;> rfl

lemma writeFlag_devices (st : SysState) (flow : EDataFlow) (v : Bool) :
    (writeFlag st flow v).devices = st.devices := by
  cases flow <;> rfl

/-- Case analysis of one `on_lock` role block: either no `SetMute`
happened (mute registers and the role's flag are unchanged), or the
role resolved to a device that was unmuted, which is now muted with the
role's flag set. -/
lemma on_lock_role_spec (env : Env) (st : SysState) (flow : EDataFlow) :
    ((on_lock_role env st flow).2.1.mute = st.mute ∧
      readFlag (on_lock_role env st flow).2.1 flow = readFlag st flow ∧
      (∀ a b, Event.setMute a b ∉ (on_lock_role env st flow).2.2)) ∨
    (∃ id, env.defaultDevice flow = some id ∧ st.mute id = false ∧
      (on_lock_role env st flow).2.1.mute = Function.update st.mute id true ∧
      readFlag (on_lock_role env st flow).2.1 flow = true ∧
      Event.setMute id true ∈ (on_lock_role env st flow).2.2) := by
  unfold on_lock_role
  split
  · left; exact ⟨rfl, rfl, by simp⟩
  · rename_i id hres
    have hid : env.defaultDevice flow = some id := by
      unfold get_default_device at hres
      cases h : env.defaultDevice flow <;> rw [h] at hres <;> simp_all
    split
    · rename_i e st1 tr1 hgd
      have hmute : st1.mute = st.mute := by
        have h2 := get_device_mute env st id; rw [hgd] at h2; exact h2
      have hflag : readFlag st1 flow = readFlag st flow := by
        have h2 := get_device_flag_out env st id; rw [hgd] at h2
        have h3 := get_device_flag_in env st id; rw [hgd] at h3
        cases flow
        · exact h2
        · exact h3
      have htr : ∀ a b, Event.setMute a b ∉ tr1 := by
        intro a b
        have h2 := get_device_no_setMute env st id a b; rw [hgd] at h2; exact h2
      left; exact ⟨hmute, hflag, htr⟩
    · rename_i dev st1 tr1 hgd
      have hmute : st1.mute = st.mute := by
        have h2 := get_device_mute env st id; rw [hgd] at h2; exact h2
      have hflag : readFlag st1 flow = readFlag st flow := by
        have h2 := get_device_flag_out env st id; rw [hgd] at h2
        have h3 := get_device_flag_in env st id; rw [hgd] at h3
        cases flow
        · exact h2
        · exact h3
      have htr : ∀ a b, Event.setMute a b ∉ tr1 := by
        intro a b
        have h2 := get_device_no_setMute env st id a b; rw [hgd] at h2; exact h2
      split
      · left; exact ⟨hmute, hflag, htr⟩
      · split
        · split
          · left; exact ⟨hmute, hflag, htr⟩
          · rename_i hm _
            right
            refine ⟨id, hid, by rw [← hmute]; exact hm, ?_, ?_, ?_⟩
            · show (writeFlag _ flow true).mute = _
              rw [writeFlag_mute]
              show Function.update st1.mute id true = _
              rw [hmute]
            · show readFlag (writeFlag _ flow true) flow = true
              rw [readFlag_writeFlag_same]
            · show Event.setMute id true ∈ tr1 ++ [Event.setMute id true]
              simp
        · left; exact ⟨hmute, hflag, htr⟩

lemma readFlag_congr (st1 st : SysState) (flow : EDataFlow)
    (ho : st1.unlock_mute_output = st.unlock_mute_output)
    (hi : st1.unlock_mute_input = st.unlock_mute_input) :
    readFlag st1 flow = readFlag st flow := by
  cases flow
  · exact ho
  · exact hi

lemma get_default_device_none (env : Env) (flow : EDataFlow) (e : Err)
    (h : get_default_device env flow = .error e) :
    env.defaultDevice flow = none ∧ e = .deviceUnavailable := by
  unfold get_default_device at h
  cases h' : env.defaultDevice flow <;> rw [h'] at h <;> simp_all

lemma get_default_device_some (env : Env) (flow : EDataFlow) (id : String)
    (h : get_default_device env flow = .ok id) :
    env.defaultDevice flow = some id := by
  unfold get_default_device at h
  cases h' : env.defaultDevice flow <;> rw [h'] at h <;> simp_all

/-- Exhaustive case analysis of one `on_lock` role block, recording the
exact result in every branch. -/
lemma on_lock_role_cases (env : Env) (st : SysState) (flow : EDataFlow) :
    (env.defaultDevice flow = none ∧
      on_lock_role env st flow = (.error .deviceUnavailable, st, [])) ∨
    (∃ id, env.defaultDevice flow = some id ∧
      ((∃ e st1 tr1, get_device env st id = (.error e, st1, tr1) ∧
          on_lock_role env st flow = (.error e, st1, tr1)) ∨
       (∃ dev st1 tr1, get_device env st id = (.ok dev, st1, tr1) ∧
         ((env.getMuteFails id = true ∧
             on_lock_role env st flow = (.error .osCallFailed, st1, tr1)) ∨
          (env.getMuteFails id = false ∧ st1.mute id = false ∧
            env.setMuteFails id = true ∧
            on_lock_role env st flow = (.error .osCallFailed, st1, tr1)) ∨
          (env.getMuteFails id = false ∧ st1.mute id = false ∧
            env.setMuteFails id = false ∧
            on_lock_role env st flow =
              (.ok (),
                writeFlag { st1 with mute := Function.update st1.mute id true }
                  flow true,
                tr1 ++ [.setMute id true])) ∨
          (env.getMuteFails id = false ∧ st1.mute id = true ∧
            on_lock_role env st flow = (.ok (), st1, tr1)))))) := by
  unfold on_lock_role
  split
  · rename_i e hres
    rcases get_default_device_none env flow e hres with ⟨h1, h2⟩
    subst h2
    exact Or.inl ⟨h1, rfl⟩
  · rename_i id hres
    have hid := get_default_device_some env flow id hres
    refine Or.inr ⟨id, hid, ?_⟩
    split
    · rename_i e st1 tr1 hgd
      exact Or.inl ⟨e, st1, tr1, hgd, rfl⟩
    · rename_i dev st1 tr1 hgd
      refine Or.inr ⟨dev, st1, tr1, hgd, ?_⟩
      split
      · rename_i hgm
        exact Or.inl ⟨hgm, rfl⟩
      · rename_i hgm
        simp only [Bool.not_eq_true] at hgm
        split
        · rename_i hm
          split
          · rename_i hsm
            exact Or.inr (Or.inl ⟨hgm, hm, hsm, rfl⟩)
          · rename_i hsm
            simp only [Bool.not_eq_true] at hsm
            exact Or.inr (Or.inr (Or.inl ⟨hgm, hm, hsm, rfl⟩))
        · rename_i hm
          simp only [Bool.not_eq_false] at hm
          exact Or.inr (Or.inr (Or.inr ⟨hgm, hm, rfl⟩))

/-- Exhaustive case analysis of one `on_unlock` role block, recording
the exact result in every branch. -/
lemma on_unlock_role_cases (env : Env) (st : SysState) (flow : EDataFlow) :
    (readFlag st flow = false ∧ on_unlock_role env st flow = (.ok (), st, [])) ∨
    (readFlag st flow = true ∧
      ((env.defaultDevice flow = none ∧
         on_unlock_role env st flow = (.error .deviceUnavailable, st, [])) ∨
       (∃ id, env.defaultDevice flow = some id ∧
         ((∃ e st1 tr1, get_device env st id = (.error e, st1, tr1) ∧
             on_unlock_role env st flow = (.error e, st1, tr1)) ∨
          (∃ dev st1 tr1, get_device env st id = (.ok dev, st1, tr1) ∧
            ((env.getMuteFails id = true ∧
                on_unlock_role env st flow = (.error .osCallFailed, st1, tr1)) ∨
             (env.getMuteFails id = false ∧ st1.mute id = true ∧
               env.setMuteFails id = true ∧
               on_unlock_role env st flow = (.error .osCallFailed, st1, tr1)) ∨
             (env.getMuteFails id = false ∧ st1.mute id = true ∧
               env.setMuteFails id = false ∧
               on_unlock_role env st flow =
                 (.ok (),
                   writeFlag
                     { st1 with mute := Function.update st1.mute id false }
                     flow false,
                   tr1 ++ [.setMute id false])) ∨
             (env.getMuteFails id = false ∧ st1.mute id = false ∧
               on_unlock_role env st flow =
                 (.ok (), writeFlag st1 flow false, tr1))))))))  := by
  unfold on_unlock_role
  split
  · rename_i hflag
    refine Or.inr ⟨hflag, ?_⟩
    split
    · rename_i e hres
      rcases get_default_device_none env flow e hres with ⟨h1, h2⟩
      subst h2
      exact Or.inl ⟨h1, rfl⟩
    · rename_i id hres
      have hid := get_default_device_some env flow id hres
      refine Or.inr ⟨id, hid, ?_⟩
      split
      · rename_i e st1 tr1 hgd
        exact Or.inl ⟨e, st1, tr1, hgd, rfl⟩
      · rename_i dev st1 tr1 hgd
        refine Or.inr ⟨dev, st1, tr1, hgd, ?_⟩
        split
        · rename_i hgm
          exact Or.inl ⟨hgm, rfl⟩
        · rename_i hgm
          simp only [Bool.not_eq_true] at hgm
          split
          · rename_i hm
            split
            · rename_i hsm
              exact Or.inr (Or.inl ⟨hgm, hm, hsm, rfl⟩)
            · rename_i hsm
              simp only [Bool.not_eq_true] at hsm
              exact Or.inr (Or.inr (Or.inl ⟨hgm, hm, hsm, rfl⟩))
          · rename_i hm
            simp only [Bool.not_eq_true] at hm
            exact Or.inr (Or.inr (Or.inr ⟨hgm, hm, rfl⟩))
  · rename_i hflag
    simp only [Bool.not_eq_true] at hflag
    exact Or.inl ⟨hflag, rfl⟩

/-- `on_lock` never unmutes: a muted device stays muted through one
role block. -/
lemma on_lock_role_mute_true (env : Env) (st : SysState) (flow : EDataFlow)
    (d : String) (h : st.mute d = true) :
    (on_lock_role env st flow).2.1.mute d = true := by
  rcases on_lock_role_spec env st flow with ⟨hm, _, _⟩ | ⟨id, _, _, hm, _, _⟩
  · rw [hm]; exact h
  · rw [hm, Function.update_apply]
    split
    · rfl
    · exact h

/-- A cache entry survives one `on_lock` role block unchanged. -/
lemma on_lock_role_cache_mono (env : Env) (st : SysState) (flow : EDataFlow)
    (d : String) (v : AudioDevice) (h : st.devices.lookup d = some v) :
    (on_lock_role env st flow).2.1.devices.lookup d = some v := by
  rcases on_lock_role_cases env st flow with ⟨_, heq⟩ | ⟨id, hid, hcase⟩
  · rw [heq]; exact h
  · have hmono := get_device_cache_mono env st id d v h
    rcases hcase with ⟨e, st1, tr1, hgd, heq⟩ | ⟨dev, st1, tr1, hgd, hcase⟩
    · rw [heq]
      rw [hgd] at hmono
      exact hmono
    · rw [hgd] at hmono
      rcases hcase with ⟨_, heq⟩ | ⟨_, _, _, heq⟩ | ⟨_, _, _, heq⟩ | ⟨_, _, heq⟩
      all_goals rw [heq]
      · exact hmono
      · exact hmono
      · show (writeFlag _ flow true).devices.lookup d = some v
        rw [writeFlag_devices]
        exact hmono
      · exact hmono

/-- One `on_lock` role block does not touch the other role's flag. -/
lemma on_lock_role_flag_other (env : Env) (st : SysState)
    (flow flow' : EDataFlow) (h : flow ≠ flow') :
    readFlag (on_lock_role env st flow).2.1 flow' = readFlag st flow' := by
  rcases on_lock_role_cases env st flow with ⟨_, heq⟩ | ⟨id, hid, hcase⟩
  · rw [heq]
  · have ho := get_device_flag_out env st id
    have hi := get_device_flag_in env st id
    rcases hcase with ⟨e, st1, tr1, hgd, heq⟩ | ⟨dev, st1, tr1, hgd, hcase⟩
    · rw [heq]
      rw [hgd] at ho hi
      exact readFlag_congr st1 st flow' ho hi
    · rw [hgd] at ho hi
      have hcongr := readFlag_congr st1 st flow' ho hi
      rcases hcase with ⟨_, heq⟩ | ⟨_, _, _, heq⟩ | ⟨_, _, _, heq⟩ | ⟨_, _, heq⟩
      all_goals rw [heq]
      · exact hcongr
      · exact hcongr
      · show readFlag (writeFlag _ flow true) flow' = readFlag st flow'
        rw [readFlag_writeFlag_other _ _ _ _ h]
        exact hcongr
      · exact hcongr

/-- After a successful `on_lock` role block, the resolved device is
cached, muted, and its per-call OS operations succeed in this
environment. -/
lemma on_lock_role_ok_post (env : Env) (st : SysState) (flow : EDataFlow)
    (h : (on_lock_role env st flow).1 = .ok ()) :
    ∃ id dev, env.defaultDevice flow = some id ∧
      (on_lock_role env st flow).2.1.devices.lookup id = some dev ∧
      (on_lock_role env st flow).2.1.mute id = true ∧
      env.openPropsFails id = false ∧ env.getIdFails id = false ∧
      env.getMuteFails id = false := by
  rcases on_lock_role_cases env st flow with ⟨_, heq⟩ | ⟨id, hid, hcase⟩
  · rw [heq] at h
    cases h
  · rcases hcase with ⟨e, st1, tr1, hgd, heq⟩ | ⟨dev, st1, tr1, hgd, hcase⟩
    · rw [heq] at h
      cases h
    · have hok : (get_device env st id).1 = .ok dev := by rw [hgd]
      have hcached := get_device_ok_cached env st id dev hok
      rw [hgd] at hcached
      rcases get_device_ok_env env st id dev hok with ⟨h1, h2⟩
      rcases hcase with ⟨_, heq⟩ | ⟨_, _, _, heq⟩ | ⟨hgm, hm, hsm, heq⟩ |
        ⟨hgm, hm, heq⟩
      · rw [heq] at h
        cases h
      · rw [heq] at h
        cases h
      · refine ⟨id, dev, hid, ?_, ?_, h1, h2, hgm⟩
        · rw [heq]
          show (writeFlag _ flow true).devices.lookup id = some dev
          rw [writeFlag_devices]
          exact hcached
        · rw [heq]
          show (writeFlag _ flow true).mute id = true
          rw [writeFlag_mute]
          show Function.update st1.mute id true id = true
          rw [Function.update_same]
      · exact ⟨id, dev, hid, by rw [heq]; exact hcached, by rw [heq]; exact hm,
          h1, h2, hgm⟩

/-- An `on_lock` role block whose device is already cached and already
muted is a no-op: it returns success, changes nothing, and performs only
the unconditional property-store read. -/
lemma on_lock_role_stable (env : Env) (st : SysState) (flow : EDataFlow)
    (id : String) (dev : AudioDevice)
    (hres : env.defaultDevice flow = some id)
    (hcache : st.devices.lookup id = some dev)
    (hmute : st.mute id = true)
    (h1 : env.openPropsFails id = false) (h2 : env.getIdFails id = false)
    (h3 : env.getMuteFails id = false) :
    on_lock_role env st flow = (.ok (), st, [.openProps id]) := by
  simp [on_lock_role, get_default_device, hres,
    get_device_cached env st id dev hcache h1 h2, h3, hmute]

/-- `on_lock_role` when the role has no default endpoint: fail
immediately, touch nothing. -/
lemma on_lock_role_resolve_none (env : Env) (st : SysState)
    (flow : EDataFlow) (h : env.defaultDevice flow = none) :
    on_lock_role env st flow = (.error .deviceUnavailable, st, []) := by
  simp [on_lock_role, get_default_device, h]

/-- `on_unlock_role` with the role's flag clear is a no-op. -/
lemma on_unlock_role_skip (env : Env) (st : SysState) (flow : EDataFlow)
    (h : readFlag st flow = false) :
    on_unlock_role env st flow = (.ok (), st, []) := by
  simp [on_unlock_role, h]

/-- `on_unlock_role` with the flag set but no default endpoint for the
role: fail immediately, touch nothing — the flag stays set. -/
lemma on_unlock_role_resolve_none (env : Env) (st : SysState)
    (flow : EDataFlow) (hf : readFlag st flow = true)
    (h : env.defaultDevice flow = none) :
    on_unlock_role env st flow = (.error .deviceUnavailable, st, []) := by
  simp [on_unlock_role, get_default_device, hf, h]

/-- When an `on_unlock` role block succeeds, the role's flag is clear
afterwards. -/
lemma on_unlock_role_ok_flag (env : Env) (st : SysState) (flow : EDataFlow)
    (h : (on_unlock_role env st flow).1 = .ok ()) :
    readFlag (on_unlock_role env st flow).2.1 flow = false := by
  rcases on_unlock_role_cases env st flow with ⟨hf, heq⟩ | ⟨hf, hcase⟩
  · rw [heq]
    exact hf
  · rcases hcase with ⟨_, heq⟩ | ⟨id, hid, hcase⟩
    · rw [heq] at h
      cases h
    · rcases hcase with ⟨e, st1, tr1, hgd, heq⟩ | ⟨dev, st1, tr1, hgd, hcase⟩
      · rw [heq] at h
        cases h
      · rcases hcase with ⟨_, heq⟩ | ⟨_, _, _, heq⟩ | ⟨_, _, _, heq⟩ |
          ⟨_, _, heq⟩
        · rw [heq] at h
          cases h
        · rw [heq] at h
          cases h
        · rw [heq]
          show readFlag (writeFlag _ flow false) flow = false
          rw [readFlag_writeFlag_same]
        · rw [heq]
          show readFlag (writeFlag _ flow false) flow = false
          rw [readFlag_writeFlag_same]

/-- One `on_unlock` role block does not touch the other role's flag. -/
lemma on_unlock_role_flag_other (env : Env) (st : SysState)
    (flow flow' : EDataFlow) (h : flow ≠ flow') :
    readFlag (on_unlock_role env st flow).2.1 flow' = readFlag st flow' := by
  rcases on_unlock_role_cases env st flow with ⟨hf, heq⟩ | ⟨hf, hcase⟩
  · rw [heq]
  · rcases hcase with ⟨_, heq⟩ | ⟨id, hid, hcase⟩
    · rw [heq]
    · have ho := get_device_flag_out env st id
      have hi := get_device_flag_in env st id
      rcases hcase with ⟨e, st1, tr1, hgd, heq⟩ | ⟨dev, st1, tr1, hgd, hcase⟩
      · rw [heq]
        rw [hgd] at ho hi
        exact readFlag_congr st1 st flow' ho hi
      · rw [hgd] at ho hi
        have hcongr := readFlag_congr st1 st flow' ho hi
        rcases hcase with ⟨_, heq⟩ | ⟨_, _, _, heq⟩ | ⟨_, _, _, heq⟩ |
          ⟨_, _, heq⟩
        all_goals rw [heq]
        · exact hcongr
        · exact hcongr
        · show readFlag (writeFlag _ flow false) flow' = readFlag st flow'
          rw [readFlag_writeFlag_other _ _ _ _ h]
          exact hcongr
        · show readFlag (writeFlag _ flow false) flow' = readFlag st flow'
          rw [readFlag_writeFlag_other _ _ _ _ h]
          exact hcongr

/-- When an `on_unlock` role block fails, the role's flag is unchanged
(in particular: a set flag stays set). -/
lemma on_unlock_role_error_flag (env : Env) (st : SysState)
    (flow : EDataFlow) (e : Err)
    (h : (on_unlock_role env st flow).1 = .error e) :
    readFlag (on_unlock_role env st flow).2.1 flow = readFlag st flow := by
  rcases on_unlock_role_cases env st flow with ⟨hf, heq⟩ | ⟨hf, hcase⟩
  · rw [heq]
  · rcases hcase with ⟨_, heq⟩ | ⟨id, hid, hcase⟩
    · rw [heq]
    · have ho := get_device_flag_out env st id
      have hi := get_device_flag_in env st id
      rcases hcase with ⟨e', st1, tr1, hgd, heq⟩ | ⟨dev, st1, tr1, hgd, hcase⟩
      · rw [heq]
        rw [hgd] at ho hi
        exact readFlag_congr st1 st flow ho hi
      · rw [hgd] at ho hi
        have hcongr := readFlag_congr st1 st flow ho hi
        rcases hcase with ⟨_, heq⟩ | ⟨_, _, _, heq⟩ | ⟨_, _, _, heq⟩ |
          ⟨_, _, heq⟩
        · rw [heq]
          exact hcongr
        · rw [heq]
          exact hcongr
        · rw [heq] at h
          cases h
        · rw [heq] at h
          cases h

/-- An `on_unlock` role block can change the live mute state only of the
device its role currently resolves to. -/
lemma on_unlock_role_mute_other (env : Env) (st : SysState)
    (flow : EDataFlow) (d : String)
    (h : ∀ i, env.defaultDevice flow = some i → d ≠ i) :
    (on_unlock_role env st flow).2.1.mute d = st.mute d := by
  rcases on_unlock_role_cases env st flow with ⟨hf, heq⟩ | ⟨hf, hcase⟩
  · rw [heq]
  · rcases hcase with ⟨_, heq⟩ | ⟨id, hid, hcase⟩
    · rw [heq]
    · have hm := get_device_mute env st id
      rcases hcase with ⟨e, st1, tr1, hgd, heq⟩ | ⟨dev, st1, tr1, hgd, hcase⟩
      · rw [heq]
        rw [hgd] at hm
        rw [hm]
      · rw [hgd] at hm
        rcases hcase with ⟨_, heq⟩ | ⟨_, _, _, heq⟩ | ⟨_, _, _, heq⟩ |
          ⟨_, _, heq⟩
        all_goals rw [heq]
        · rw [hm]
        · rw [hm]
        · show (writeFlag _ flow false).mute d = st.mute d
          rw [writeFlag_mute]
          show Function.update st1.mute id false d = st.mute d
          rw [Function.update_noteq (h id hid), hm]
        · show (writeFlag _ flow false).mute d = st.mute d
          rw [writeFlag_mute, hm]

/-- On a failure, one `on_lock` role block leaves mute state, both
flags, and the set of performed `SetMute`s untouched (only the cache may
have grown). -/
lemma on_lock_role_error_state (env : Env) (st : SysState) (flow : EDataFlow)
    (e : Err) (h : (on_lock_role env st flow).1 = .error e) :
    (on_lock_role env st flow).2.1.mute = st.mute ∧
    (on_lock_role env st flow).2.1.unlock_mute_output = st.unlock_mute_output ∧
    (on_lock_role env st flow).2.1.unlock_mute_input = st.unlock_mute_input ∧
    ∀ a b, Event.setMute a b ∉ (on_lock_role env st flow).2.2 := by
  rcases on_lock_role_cases env st flow with ⟨_, heq⟩ | ⟨id, hid, hcase⟩
  · rw [heq]
    exact ⟨rfl, rfl, rfl, by simp⟩
  · have hm := get_device_mute env st id
    have ho := get_device_flag_out env st id
    have hi := get_device_flag_in env st id
    have htr := get_device_no_setMute env st id
    rcases hcase with ⟨e', st1, tr1, hgd, heq⟩ | ⟨dev, st1, tr1, hgd, hcase⟩
    · rw [hgd] at hm ho hi htr
      rw [heq]
      exact ⟨hm, ho, hi, htr⟩
    · rw [hgd] at hm ho hi htr
      rcases hcase with ⟨_, heq⟩ | ⟨_, _, _, heq⟩ | ⟨_, _, _, heq⟩ |
        ⟨_, _, heq⟩
      · rw [heq]
        exact ⟨hm, ho, hi, htr⟩
      · rw [heq]
        exact ⟨hm, ho, hi, htr⟩
      · rw [heq] at h
        cases h
      · rw [heq] at h
        cases h

/-- `on_lock` composition: a failing render block short-circuits. -/
lemma on_lock_error_left (env : Env) (st : SysState) (e : Err)
    (st1 : SysState) (tr1 : List Event)
    (h : on_lock_role env st .eRender = (.error e, st1, tr1)) :
    on_lock env st = (.error e, st1, tr1) := by
  simp [on_lock, h]

/-- `on_lock` composition: after a successful render block the capture
block runs from the intermediate state. -/
lemma on_lock_ok_left (env : Env) (st : SysState)
    (st1 : SysState) (tr1 : List Event)
    (h : on_lock_role env st .eRender = (.ok (), st1, tr1)) :
    on_lock env st =
      ((on_lock_role env st1 .eCapture).1,
        (on_lock_role env st1 .eCapture).2.1,
        tr1 ++ (on_lock_role env st1 .eCapture).2.2) := by
  simp [on_lock, h]

/-- `on_unlock` composition: a failing render block short-circuits. -/
lemma on_unlock_error_left (env : Env) (st : SysState) (e : Err)
    (st1 : SysState) (tr1 : List Event)
    (h : on_unlock_role env st .eRender = (.error e, st1, tr1)) :
    on_unlock env st = (.error e, st1, tr1) := by
  simp [on_unlock, h]

/-- `on_unlock` composition: after a successful render block the capture
block runs from the intermediate state. -/
lemma on_unlock_ok_left (env : Env) (st : SysState)
    (st1 : SysState) (tr1 : List Event)
    (h : on_unlock_role env st .eRender = (.ok (), st1, tr1)) :
    on_unlock env st =
      ((on_unlock_role env st1 .eCapture).1,
        (on_unlock_role env st1 .eCapture).2.1,
        tr1 ++ (on_unlock_role env st1 .eCapture).2.2) := by
  simp [on_unlock, h]

/-- `on_lock` never unmutes a muted device. -/
lemma on_lock_mute_true (env : Env) (st : SysState) (d : String)
    (h : st.mute d = true) : (on_lock env st).2.1.mute d = true := by
  rcases hR : on_lock_role env st .eRender with ⟨resR, st1, tr1⟩
  have h1 : st1.mute d = true := by
    have h2 := on_lock_role_mute_true env st .eRender d h
    rw [hR] at h2
    exact h2
  cases resR with
  | error e =>
    rw [on_lock_error_left env st e st1 tr1 hR]
    exact h1
  | ok u =>
    cases u
    rw [on_lock_ok_left env st st1 tr1 hR]
    show (on_lock_role env st1 .eCapture).2.1.mute d = true
    exact on_lock_role_mute_true env st1 .eCapture d h1

/-- A role block of `on_lock` whose resolved device is already muted
leaves that role's flag `false` (lock never claims a user mute). -/
lemma on_lock_role_flag_still_false (env : Env) (st : SysState)
    (flow : EDataFlow) (d : String)
    (hres : env.defaultDevice flow = some d) (hm : st.mute d = true)
    (hf : readFlag st flow = false) :
    readFlag (on_lock_role env st flow).2.1 flow = false := by
  rcases on_lock_role_spec env st flow with ⟨_, hflag, _⟩ |
    ⟨id, hid, hmf, _, _, _⟩
  · rw [hflag]
    exact hf
  · rw [hres] at hid
    injection hid with hdi
    rw [← hdi] at hmf
    rw [hm] at hmf
    cases hmf

/-- An `on_unlock` role block leaves an already-true mute register true
whenever its flag is clear for the device the role resolves to (or the
role resolves elsewhere). -/
lemma on_unlock_role_mute_true_safe (env : Env) (st : SysState)
    (flow : EDataFlow) (d : String) (hm : st.mute d = true)
    (hsafe : env.defaultDevice flow = some d → readFlag st flow = false) :
    (on_unlock_role env st flow).2.1.mute d = true := by
  by_cases hres : env.defaultDevice flow = some d
  · rw [on_unlock_role_skip env st flow (hsafe hres)]
    exact hm
  · rw [on_unlock_role_mute_other env st flow d ?_]
    · exact hm
    · intro i hi hdi
      rw [hdi] at hres
      exact hres hi

/-- `on_paint_role` either fails or succeeds having drawn the role's
icon. -/
lemma on_paint_role_cases (env : Env) (st : SysState) (flow : EDataFlow) :
    (∃ e, (on_paint_role env st flow).1 = .error e) ∨
    ((on_paint_role env st flow).1 = .ok () ∧
      Event.drawIcon flow ∈ (on_paint_role env st flow).2.2) := by
  unfold on_paint_role
  split
  · exact Or.inl ⟨_, rfl⟩
  · split
    · exact Or.inl ⟨_, rfl⟩
    · split
      · exact Or.inl ⟨_, rfl⟩
      · split
        · exact Or.inl ⟨_, rfl⟩
        · split
          · exact Or.inr ⟨rfl, by simp⟩
          · exact Or.inr ⟨rfl, by simp⟩

/-- `on_paint_role` for a role with no default endpoint: fail
immediately with nothing drawn. -/
lemma on_paint_role_resolve_none (env : Env) (st : SysState)
    (flow : EDataFlow) (h : env.defaultDevice flow = none) :
    on_paint_role env st flow = (.error .deviceUnavailable, st, []) := by
  simp [on_paint_role, get_default_device, h]

/-- `on_paint` composition: a failing render slot aborts the repaint. -/
lemma on_paint_error_left (env : Env) (st : SysState) (e : Err)
    (st1 : SysState) (tr1 : List Event)
    (hw : env.getWindowRectFails = false)
    (h : on_paint_role env st .eRender = (.error e, st1, tr1)) :
    on_paint env st = (.error e, st1, tr1) := by
  simp [on_paint, hw, h]

/-- `on_paint` composition: after a successful render slot, the capture
slot and the final `UpdateLayeredWindow` run. -/
lemma on_paint_ok_left (env : Env) (st : SysState)
    (st1 : SysState) (tr1 : List Event)
    (hw : env.getWindowRectFails = false)
    (h : on_paint_role env st .eRender = (.ok (), st1, tr1)) :
    on_paint env st =
      (match on_paint_role env st1 .eCapture with
        | (.error e, st2, tr2) => (.error e, st2, tr1 ++ tr2)
        | (.ok _, st2, tr2) =>
          if env.updateLayeredWindowFails then
            (.error .osCallFailed, st2, tr1 ++ tr2)
          else (.ok (), st2, tr1 ++ tr2 ++ [.updateWindow])) := by
  simp [on_paint, hw, h]

/-- `goodEnv` with the render role unavailable (no default output
endpoint); the capture role still resolves to a fully functional
device `"in"`. -/
def envNoRender : Env :=
  { goodEnv with
    defaultDevice := fun flow =>
      match flow with
      | .eRender => none
      | .eCapture => some "in" }

/-- A state in which a previous lock force-muted the output: the output
flag is set, everything is muted, and the cache is empty. -/
def stOutFlag : SysState :=
  { devices := [], unlock_mute_output := true, unlock_mute_input := false,
    mute := fun _ => true }

/-- A state right after a fully successful lock: both flags set, every
endpoint muted. -/
def stLocked : SysState :=
  { devices := [], unlock_mute_output := true, unlock_mute_input := true,
    mute := fun _ => true }

/-- C1, counterexample.  With the render role unavailable but the
capture role fully functional and unmuted, `on_lock` fails with
`DeviceUnavailable`, performs no action at all, and leaves the capture
endpoint unmuted with its flag clear — even though the capture sub-step
alone would have succeeded and muted it.  This refutes the claim that a
failure on the output role still lets `on_lock` attempt the input
role. -/
theorem C1_counterexample :
    (on_lock envNoRender initState).1 = Except.error Err.deviceUnavailable ∧
    (on_lock envNoRender initState).2.2 = [] ∧
    (on_lock envNoRender initState).2.1.mute "in" = false ∧
    (on_lock envNoRender initState).2.1.unlock_mute_input = false ∧
    (on_lock_role envNoRender initState .eCapture).1 = Except.ok () ∧
    (on_lock_role envNoRender initState .eCapture).2.1.mute "in" = true := by
  refine ⟨by decide, by decide, by decide, by decide, by decide, by decide⟩

/-- C1, amended.  The two role sub-steps of `on_lock` are sequential and
short-circuiting, not independent: when the render (output) sub-step
fails, `on_lock` returns that error immediately — the capture (input)
endpoint is not resolved or muted, no `SetMute` is performed for either
role, and the mute registers and both flags are unchanged.  The error
is logged only by the caller (`wrap`), after `on_lock` has returned. -/
theorem C1_lock_short_circuit (env : Env) (st : SysState) (e : Err)
    (h : (on_lock_role env st .eRender).1 = .error e) :
    (on_lock env st).1 = .error e ∧
    (on_lock env st).2.1.mute = st.mute ∧
    (on_lock env st).2.1.unlock_mute_output = st.unlock_mute_output ∧
    (on_lock env st).2.1.unlock_mute_input = st.unlock_mute_input ∧
    ∀ a b, Event.setMute a b ∉ (on_lock env st).2.2 := by
  rcases on_lock_role_error_state env st .eRender e h with ⟨hm, ho, hi, htr⟩
  rcases hR : on_lock_role env st .eRender with ⟨resR, st1, tr1⟩
  rw [hR] at h hm ho hi htr
  cases resR with
  | error e' =>
    cases h
    rw [on_lock_error_left env st e st1 tr1 hR]
    exact ⟨rfl, hm, ho, hi, htr⟩
  | ok u => cases h

/-- C1, witness for the amended theorem at a concrete input. -/
theorem C1_witness :
    (on_lock envNoRender initState).1 = Except.error Err.deviceUnavailable ∧
    (on_lock envNoRender initState).2.1.unlock_mute_output = false ∧
    (on_lock envNoRender initState).2.1.unlock_mute_input = false :=
  ⟨(C1_lock_short_circuit envNoRender initState Err.deviceUnavailable
      (by decide)).1,
   (C1_lock_short_circuit envNoRender initState Err.deviceUnavailable
      (by decide)).2.2.1,
   (C1_lock_short_circuit envNoRender initState Err.deviceUnavailable
      (by decide)).2.2.2.1⟩

/-- C2, counterexample.  From a state with `unlock_mute_output = true`,
if resolving the render role fails, `on_unlock` returns the error and
the flag is NOT cleared — refuting the claim that the flag is cleared
by the end of the call regardless of failures. -/
theorem C2_counterexample :
    (on_unlock envNoRender stOutFlag).1 =
      Except.error Err.deviceUnavailable ∧
    (on_unlock envNoRender stOutFlag).2.1.unlock_mute_output = true := by
  refine ⟨by decide, by decide⟩

/-- C2, amended.  `on_unlock` clears a role's was-force-muted flag only
when every step of that role's branch succeeds (resolve the role, track
the device, read its mute state, and unmute it when still muted): when
the whole call returns success both flags are false, but when the
render branch fails its error propagates, the output flag keeps its
old (set) value, and the input branch is not reached, keeping the input
flag unchanged as well. -/
theorem C2_unlock_flags (env : Env) (st : SysState) :
    ((on_unlock env st).1 = .ok () →
      (on_unlock env st).2.1.unlock_mute_output = false ∧
      (on_unlock env st).2.1.unlock_mute_input = false) ∧
    (∀ e, (on_unlock_role env st .eRender).1 = .error e →
      (on_unlock env st).2.1.unlock_mute_output = st.unlock_mute_output ∧
      (on_unlock env st).2.1.unlock_mute_input = st.unlock_mute_input) := by
  constructor
  · intro h
    rcases hR : on_unlock_role env st .eRender with ⟨resR, st1, tr1⟩
    cases resR with
    | error e =>
      rw [on_unlock_error_left env st e st1 tr1 hR] at h
      cases h
    | ok u =>
      cases u
      have hflagR : readFlag st1 .eRender = false := by
        have h2 := on_unlock_role_ok_flag env st .eRender (by rw [hR])
        rw [hR] at h2
        exact h2
      rw [on_unlock_ok_left env st st1 tr1 hR] at h ⊢
      have hok : (on_unlock_role env st1 .eCapture).1 = .ok () := h
      constructor
      · show readFlag (on_unlock_role env st1 .eCapture).2.1 .eRender = false
        rw [on_unlock_role_flag_other env st1 .eCapture .eRender
          (by intro hc; cases hc)]
        exact hflagR
      · exact on_unlock_role_ok_flag env st1 .eCapture hok
  · intro e h
    have hflags := on_unlock_role_error_flag env st .eRender e h
    have hother := on_unlock_role_flag_other env st .eRender .eCapture
      (by intro hc; cases hc)
    rcases hR : on_unlock_role env st .eRender with ⟨resR, st1, tr1⟩
    rw [hR] at h hflags hother
    cases resR with
    | error e' =>
      cases h
      rw [on_unlock_error_left env st e st1 tr1 hR]
      exact ⟨hflags, hother⟩
    | ok u => cases h

/-- C2, witness for the amended theorem: a fully successful unlock from
a both-flags-set state clears both flags. -/
theorem C2_witness :
    (on_unlock goodEnv stLocked).2.1.unlock_mute_output = false ∧
    (on_unlock goodEnv stLocked).2.1.unlock_mute_input = false :=
  (C2_unlock_flags goodEnv stLocked).1 (by decide)

/-- C4 (confirmed).  Calling `on_unlock` with both flags false — in
particular without a preceding `on_lock` — is a no-op: it succeeds,
changes no device's mute state (the state is returned unchanged), emits
no action (so no `SetMute`), and the flags remain false. -/
theorem C4_unlock_noop (env : Env) (st : SysState)
    (ho : st.unlock_mute_output = false) (hi : st.unlock_mute_input = false) :
    on_unlock env st = (.ok (), st, []) := by
  have h1 : on_unlock_role env st .eRender = (.ok (), st, []) :=
    on_unlock_role_skip env st .eRender ho
  have h2 : on_unlock_role env st .eCapture = (.ok (), st, []) :=
    on_unlock_role_skip env st .eCapture hi
  rw [on_unlock_ok_left env st st [] h1, h2]
  rfl

/-- C4, witness at a concrete input. -/
theorem C4_witness : on_unlock goodEnv initState = (.ok (), initState, []) :=
  C4_unlock_noop goodEnv initState rfl rfl

/-- `on_unlock` keeps a device muted provided that, for each role that
resolves to this device, the role's flag is clear. -/
lemma on_unlock_mute_preserved (env : Env) (st : SysState) (d : String)
    (hm : st.mute d = true)
    (hsafeR : env.defaultDevice .eRender = some d →
      st.unlock_mute_output = false)
    (hsafeC : env.defaultDevice .eCapture = some d →
      st.unlock_mute_input = false) :
    (on_unlock env st).2.1.mute d = true := by
  rcases hR : on_unlock_role env st .eRender with ⟨resR, st1, tr1⟩
  have h1 : st1.mute d = true := by
    have h2 := on_unlock_role_mute_true_safe env st .eRender d hm hsafeR
    rw [hR] at h2
    exact h2
  have hCflag : readFlag st1 .eCapture = readFlag st .eCapture := by
    have h2 := on_unlock_role_flag_other env st .eRender .eCapture
      (by intro hc; cases hc)
    rw [hR] at h2
    exact h2
  cases resR with
  | error e =>
    rw [on_unlock_error_left env st e st1 tr1 hR]
    exact h1
  | ok u =>
    cases u
    rw [on_unlock_ok_left env st st1 tr1 hR]
    show (on_unlock_role env st1 .eCapture).2.1.mute d = true
    apply on_unlock_role_mute_true_safe env st1 .eCapture d h1
    intro hres
    rw [hCflag]
    exact hsafeC hres

/-- C3 (confirmed).  A device already muted when `on_lock` runs (with
both flags clear, per the flag invariant) keeps its mute state through
`on_lock`; each role resolving to it keeps its flag false; and the
following `on_unlock` (same environment) does not unmute it. -/
theorem C3_already_muted (env : Env) (st : SysState) (d : String)
    (hm : st.mute d = true)
    (ho : st.unlock_mute_output = false) (hi : st.unlock_mute_input = false) :
    (on_lock env st).2.1.mute d = true ∧
    (env.defaultDevice .eRender = some d →
      (on_lock env st).2.1.unlock_mute_output = false) ∧
    (env.defaultDevice .eCapture = some d →
      (on_lock env st).2.1.unlock_mute_input = false) ∧
    (on_unlock env (on_lock env st).2.1).2.1.mute d = true := by
  have hlockmute := on_lock_mute_true env st d hm
  have hOut : env.defaultDevice .eRender = some d →
      (on_lock env st).2.1.unlock_mute_output = false := by
    intro hres
    rcases hR : on_lock_role env st .eRender with ⟨resR, st1, tr1⟩
    have hf1 : readFlag st1 .eRender = false := by
      have h2 := on_lock_role_flag_still_false env st .eRender d hres hm ho
      rw [hR] at h2
      exact h2
    cases resR with
    | error e =>
      rw [on_lock_error_left env st e st1 tr1 hR]
      exact hf1
    | ok u =>
      cases u
      rw [on_lock_ok_left env st st1 tr1 hR]
      show readFlag (on_lock_role env st1 .eCapture).2.1 .eRender = false
      rw [on_lock_role_flag_other env st1 .eCapture .eRender
        (by intro hc; cases hc)]
      exact hf1
  have hIn : env.defaultDevice .eCapture = some d →
      (on_lock env st).2.1.unlock_mute_input = false := by
    intro hres
    rcases hR : on_lock_role env st .eRender with ⟨resR, st1, tr1⟩
    have hfpre : readFlag st1 .eCapture = false := by
      have h2 := on_lock_role_flag_other env st .eRender .eCapture
        (by intro hc; cases hc)
      rw [hR] at h2
      exact h2.trans hi
    cases resR with
    | error e =>
      rw [on_lock_error_left env st e st1 tr1 hR]
      exact hfpre
    | ok u =>
      cases u
      have hm1 : st1.mute d = true := by
        have h2 := on_lock_role_mute_true env st .eRender d hm
        rw [hR] at h2
        exact h2
      rw [on_lock_ok_left env st st1 tr1 hR]
      show readFlag (on_lock_role env st1 .eCapture).2.1 .eCapture = false
      exact on_lock_role_flag_still_false env st1 .eCapture d hres hm1 hfpre
  refine ⟨hlockmute, hOut, hIn, ?_⟩
  exact on_unlock_mute_preserved env (on_lock env st).2.1 d hlockmute hOut hIn

/-- A state in which only device `"out"` is muted (a user mute of the
default output device), flags clear. -/
def stMutedOut : SysState :=
  { initState with mute := fun i => i == "out" }

/-- C3, witness at a concrete input: the muted default output device
stays muted and unflagged through a lock/unlock round trip. -/
theorem C3_witness :
    (on_lock goodEnv stMutedOut).2.1.mute "out" = true ∧
    (on_lock goodEnv stMutedOut).2.1.unlock_mute_output = false ∧
    (on_unlock goodEnv (on_lock goodEnv stMutedOut).2.1).2.1.mute "out" =
      true := by
  have h := C3_already_muted goodEnv stMutedOut "out" (by decide) rfl rfl
  exact ⟨h.1, h.2.1 (by decide), h.2.2.2⟩

/-- C5 (confirmed).  After a successful `on_lock`, running `on_lock`
again in the same environment is a no-op: the second call succeeds,
returns the state unchanged (same mute registers, same cache, same
flags — so flags already true are not re-set), and issues no `SetMute`
(each device is observed already muted). -/
theorem C5_lock_idempotent (env : Env) (st : SysState)
    (h : (on_lock env st).1 = .ok ()) :
    (on_lock env (on_lock env st).2.1).2.1 = (on_lock env st).2.1 ∧
    (on_lock env (on_lock env st).2.1).1 = .ok () ∧
    ∀ a b, Event.setMute a b ∉ (on_lock env (on_lock env st).2.1).2.2 := by
  rcases hR : on_lock_role env st .eRender with ⟨resR, st1, tr1⟩
  cases resR with
  | error e =>
    rw [on_lock_error_left env st e st1 tr1 hR] at h
    cases h
  | ok u =>
    cases u
    have hRok : (on_lock_role env st .eRender).1 = .ok () := by rw [hR]
    rcases on_lock_role_ok_post env st .eRender hRok with
      ⟨r, devr, hres_r, hcache_r, hmute_r, h1r, h2r, h3r⟩
    rw [hR] at hcache_r hmute_r
    rcases hC : on_lock_role env st1 .eCapture with ⟨resC, st2, tr2⟩
    have hcomp : on_lock env st = (resC, st2, tr1 ++ tr2) := by
      rw [on_lock_ok_left env st st1 tr1 hR, hC]
    cases resC with
    | error e =>
      rw [hcomp] at h
      cases h
    | ok u2 =>
      cases u2
      have hCok : (on_lock_role env st1 .eCapture).1 = .ok () := by rw [hC]
      rcases on_lock_role_ok_post env st1 .eCapture hCok with
        ⟨c, devc, hres_c, hcache_c, hmute_c, h1c, h2c, h3c⟩
      rw [hC] at hcache_c hmute_c
      have hcache_r2 : st2.devices.lookup r = some devr := by
        have h2 := on_lock_role_cache_mono env st1 .eCapture r devr hcache_r
        rw [hC] at h2
        exact h2
      have hmute_r2 : st2.mute r = true := by
        have h2 := on_lock_role_mute_true env st1 .eCapture r hmute_r
        rw [hC] at h2
        exact h2
      have hstable_r := on_lock_role_stable env st2 .eRender r devr hres_r
        hcache_r2 hmute_r2 h1r h2r h3r
      have hstable_c := on_lock_role_stable env st2 .eCapture c devc hres_c
        hcache_c hmute_c h1c h2c h3c
      have hsecond : on_lock env st2 =
          (.ok (), st2, [Event.openProps r, Event.openProps c]) := by
        rw [on_lock_ok_left env st2 st2 [Event.openProps r] hstable_r,
          hstable_c]
        rfl
      simp only [hcomp]
      rw [hsecond]
      exact ⟨rfl, rfl, by simp⟩

/-- C5, witness at a concrete input. -/
theorem C5_witness :
    (on_lock goodEnv (on_lock goodEnv initState).2.1).2.1 =
      (on_lock goodEnv initState).2.1 ∧
    (on_lock goodEnv (on_lock goodEnv initState).2.1).1 = Except.ok () :=
  ⟨(C5_lock_idempotent goodEnv initState (by decide)).1,
   (C5_lock_idempotent goodEnv initState (by decide)).2.1⟩

/-- C6 (confirmed).  `get_device` is memoizing: after a successful call
for a device id, a second call with the same id (in the same
environment) returns the same cached entry, leaves the state unchanged
(no re-insertion), and performs none of the activation sequence — no
name read, no icon load, no `Activate`, and no re-subscription; only the
unconditional property-store open is repeated. -/
theorem C6_get_device_memoizing (env : Env) (st : SysState) (id : String)
    (dev : AudioDevice) (st1 : SysState) (tr1 : List Event)
    (h : get_device env st id = (.ok dev, st1, tr1)) :
    get_device env st1 id = (.ok dev, st1, [Event.openProps id]) ∧
    Event.readName id ∉ (get_device env st1 id).2.2 ∧
    Event.loadIcon id ∉ (get_device env st1 id).2.2 ∧
    Event.activate id ∉ (get_device env st1 id).2.2 ∧
    Event.subscribe id ∉ (get_device env st1 id).2.2 := by
  have hok : (get_device env st id).1 = .ok dev := by rw [h]
  rcases get_device_ok_env env st id dev hok with ⟨h1, h2⟩
  have hc := get_device_ok_cached env st id dev hok
  rw [h] at hc
  have heq := get_device_cached env st1 id dev hc h1 h2
  refine ⟨heq, ?_, ?_, ?_, ?_⟩ <;> rw [heq] <;> simp

/-- The entry created by tracking device `"out"` in `goodEnv`. -/
def dev0 : AudioDevice := ⟨"dev", ⟨"icon.dll", 3⟩⟩

/-- The state after tracking device `"out"` from `initState` in
`goodEnv`. -/
def cachedState : SysState :=
  { devices := [("out", dev0)], unlock_mute_output := false,
    unlock_mute_input := false, mute := initState.mute }

/-- C6, witness at a concrete input: re-querying a cached device returns
the cached entry with only the property-store open. -/
theorem C6_witness :
    get_device goodEnv cachedState "out" =
      (.ok dev0, cachedState, [Event.openProps "out"]) :=
  (C6_get_device_memoizing goodEnv initState "out" dev0 cachedState
    [Event.openProps "out", Event.readName "out", Event.loadIcon "out",
      Event.activate "out", Event.subscribe "out"] (by rfl)).1

/-- `goodEnv`, but every device's icon descriptor has no comma. -/
def envNoCommaIcon : Env :=
  { goodEnv with iconPathProp := fun _ => some "foo" }

/-- `goodEnv`, but every device's icon descriptor has a non-integer
index after the comma. -/
def envBadIcon : Env :=
  { goodEnv with iconPathProp := fun _ => some "foo,bar" }

/-- C7, counterexample.  A descriptor with no comma does NOT fail:
`split(",")` always yields at least one fragment, so the whole string
becomes the path, the index defaults to 0, decoding succeeds, and the
device is tracked and cached — refuting the claim that comma-less
descriptors fail with `InvalidIconDescriptor`. -/
theorem C7_counterexample :
    load_icon "foo" = Except.ok ⟨"foo", 0⟩ ∧
    (get_device envNoCommaIcon initState "out").1 =
      Except.ok ⟨"dev", ⟨"foo", 0⟩⟩ ∧
    (get_device envNoCommaIcon initState "out").2.1.devices.lookup "out" =
      some ⟨"dev", ⟨"foo", 0⟩⟩ := by
  refine ⟨by rfl, by decide, by decide⟩

/-- C7, amended.  Decoding fails for descriptors whose index part does
not parse as an integer (e.g. `"foo,bar"`), not for comma-less ones; on
any `get_device` failure (icon decoding included) the error propagates
and the cache is left exactly as it was — no partial entry. -/
theorem C7_malformed_icon (env : Env) (st : SysState) (id : String) :
    (∀ e, (get_device env st id).1 = Except.error e →
      (get_device env st id).2.1.devices = st.devices) ∧
    load_icon "foo,bar" = Except.error Err.iconIndexParseError ∧
    (get_device envBadIcon initState "out").1 =
      Except.error Err.iconIndexParseError ∧
    (get_device envBadIcon initState "out").2.1.devices.lookup "out" =
      none := by
  refine ⟨?_, by rfl, by decide, by decide⟩
  intro e h
  rw [get_device_error_state env st id e h]

/-- C7, witness for the amended theorem: the failing tracking attempt
leaves the cache empty. -/
theorem C7_witness :
    (get_device envBadIcon initState "out").2.1.devices =
      initState.devices :=
  (C7_malformed_icon envBadIcon initState "out").1 Err.iconIndexParseError
    (by decide)

/-- C8, counterexample.  The device-added handler (like device-removed,
device-state-changed and property-changed) performs no action at all —
in particular it requests no redraw — refuting the claim that every
event in the four categories causes a redraw request. -/
theorem C8_counterexample :
    (onDeviceAdded initState).2 = [] ∧
    Event.redraw ∉ (onDeviceAdded initState).2 ∧
    (onDeviceStateChanged initState).2 = [] ∧
    (onDeviceRemoved initState).2 = [] ∧
    (onPropertyValueChanged initState).2 = [] := by
  refine ⟨rfl, by decide, rfl, rfl, rfl⟩

/-- C8, amended.  Only the default-device-changed and per-device
volume/mute-changed callbacks request a redraw; the device-added,
device-removed, device-state-changed and property-value-changed
handlers do nothing.  No handler mutates the cache or the policy flags
(the state is returned unchanged by all six). -/
theorem C8_notification_handlers (st : SysState) :
    onDefaultDeviceChanged st = (st, [Event.redraw]) ∧
    onNotify st = (st, [Event.redraw]) ∧
    onDeviceStateChanged st = (st, []) ∧
    onDeviceAdded st = (st, []) ∧
    onDeviceRemoved st = (st, []) ∧
    onPropertyValueChanged st = (st, []) :=
  ⟨rfl, rfl, rfl, rfl, rfl, rfl⟩

/-- C9, counterexample.  With the render role unavailable but the
capture slot fully drawable, `on_paint` aborts immediately: it returns
the error, draws neither slot, and never commits the frame — refuting
the claim that a failing slot degrades to skipping only that slot. -/
theorem C9_counterexample :
    (on_paint envNoRender initState).1 =
      Except.error Err.deviceUnavailable ∧
    (on_paint envNoRender initState).2.2 = [] ∧
    Event.drawIcon .eCapture ∉ (on_paint envNoRender initState).2.2 ∧
    Event.updateWindow ∉ (on_paint envNoRender initState).2.2 ∧
    (on_paint_role envNoRender initState .eCapture).1 = Except.ok () := by
  refine ⟨by decide, by decide, by decide, by decide, by decide⟩

/-- C9, amended.  `on_paint` is all-or-nothing: a failure in the render
slot (e.g. no default output device) aborts the whole repaint with the
error, drawing nothing and not committing the frame; the repaint
completes — and only then — when both slots succeed, in which case both
icons are drawn and the frame is committed. -/
theorem C9_paint_abort (env : Env) (st : SysState) :
    (env.getWindowRectFails = false → env.defaultDevice .eRender = none →
      on_paint env st = (.error .deviceUnavailable, st, [])) ∧
    ((on_paint env st).1 = .ok () →
      Event.drawIcon .eRender ∈ (on_paint env st).2.2 ∧
      Event.drawIcon .eCapture ∈ (on_paint env st).2.2 ∧
      Event.updateWindow ∈ (on_paint env st).2.2) := by
  constructor
  · intro hw hres
    have h1 := on_paint_role_resolve_none env st .eRender hres
    exact on_paint_error_left env st _ st [] hw h1
  · intro h
    by_cases hw : env.getWindowRectFails = true
    · have hfail : on_paint env st = (.error .osCallFailed, st, []) := by
        simp [on_paint, hw]
      rw [hfail] at h
      cases h
    · simp only [Bool.not_eq_true] at hw
      rcases hR : on_paint_role env st .eRender with ⟨resR, st1, tr1⟩
      cases resR with
      | error e =>
        rw [on_paint_error_left env st e st1 tr1 hw hR] at h
        cases h
      | ok u =>
        cases u
        have hdrawR : Event.drawIcon .eRender ∈ tr1 := by
          rcases on_paint_role_cases env st .eRender with ⟨e, he⟩ | ⟨_, hm⟩
          · rw [hR] at he
            cases he
          · rw [hR] at hm
            exact hm
        have hcomp := on_paint_ok_left env st st1 tr1 hw hR
        rcases hC : on_paint_role env st1 .eCapture with ⟨resC, st2, tr2⟩
        rw [hC] at hcomp
        cases resC with
        | error e =>
          rw [hcomp] at h
          cases h
        | ok u2 =>
          cases u2
          have hdrawC : Event.drawIcon .eCapture ∈ tr2 := by
            rcases on_paint_role_cases env st1 .eCapture with ⟨e, he⟩ | ⟨_, hm⟩
            · rw [hC] at he
              cases he
            · rw [hC] at hm
              exact hm
          by_cases hu : env.updateLayeredWindowFails = true
          · rw [hcomp] at h
            simp [hu] at h
          · simp only [Bool.not_eq_true] at hu
            have hfinal : on_paint env st =
                (.ok (), st2, tr1 ++ tr2 ++ [Event.updateWindow]) := by
              rw [hcomp]
              simp [hu]
            rw [hfinal]
            refine ⟨?_, ?_, ?_⟩ <;> simp [hdrawR, hdrawC]

/-- C9, witness for the amended theorem at a concrete input. -/
theorem C9_witness :
    on_paint envNoRender initState =
      (Except.error Err.deviceUnavailable, initState, []) :=
  (C9_paint_abort envNoRender initState).1 rfl rfl

/-- When `GetMute` or `SetMute` fails for the device a role resolves to,
that role's `on_lock` block leaves the role's (false) flag false. -/
lemma on_lock_role_flag_false_on_failure (env : Env) (st : SysState)
    (flow : EDataFlow) (r : String)
    (hf : readFlag st flow = false)
    (hres : env.defaultDevice flow = some r)
    (hfail : env.getMuteFails r = true ∨ env.setMuteFails r = true) :
    readFlag (on_lock_role env st flow).2.1 flow = false := by
  rcases on_lock_role_cases env st flow with ⟨hnone, heq⟩ | ⟨id, hid, hcase⟩
  · rw [heq]
    exact hf
  · rw [hres] at hid
    injection hid with hidr
    subst hidr
    have ho := get_device_flag_out env st r
    have hi := get_device_flag_in env st r
    rcases hcase with ⟨e, st1, tr1, hgd, heq⟩ | ⟨dev, st1, tr1, hgd, hcase⟩
    · rw [heq]
      rw [hgd] at ho hi
      exact (readFlag_congr st1 st flow ho hi).trans hf
    · rw [hgd] at ho hi
      have hcongr := readFlag_congr st1 st flow ho hi
      rcases hcase with ⟨_, heq⟩ | ⟨_, _, _, heq⟩ | ⟨hgm, hm, hsm, heq⟩ |
        ⟨_, _, heq⟩
      · rw [heq]
        exact hcongr.trans hf
      · rw [heq]
        exact hcongr.trans hf
      · rcases hfail with hfg | hfs
        · rw [hfg] at hgm
          cases hgm
        · rw [hfs] at hsm
          cases hsm
      · rw [heq]
        exact hcongr.trans hf

/-- C10 (confirmed; implicit claim).  In `on_lock`, a was-force-muted
flag becomes true only through a successful `SetMute(true)` on the
device its role resolved to: if the flag is set after the call and was
not set before, a `SetMute(id, true)` was performed on the resolved
device during the call.  Conversely, when `GetMute` or `SetMute` fails
for a role's device, that role's flag stays false (failures cannot set
a flag). -/
theorem C10_flag_only_after_mute (env : Env) (st : SysState) :
    ((on_lock env st).2.1.unlock_mute_output = true →
      st.unlock_mute_output = true ∨
      ∃ r, env.defaultDevice .eRender = some r ∧
        Event.setMute r true ∈ (on_lock env st).2.2) ∧
    ((on_lock env st).2.1.unlock_mute_input = true →
      st.unlock_mute_input = true ∨
      ∃ c, env.defaultDevice .eCapture = some c ∧
        Event.setMute c true ∈ (on_lock env st).2.2) ∧
    (st.unlock_mute_output = false →
      ∀ r, env.defaultDevice .eRender = some r →
        (env.getMuteFails r = true ∨ env.setMuteFails r = true) →
        (on_lock env st).2.1.unlock_mute_output = false) ∧
    (st.unlock_mute_input = false →
      ∀ c, env.defaultDevice .eCapture = some c →
        (env.getMuteFails c = true ∨ env.setMuteFails c = true) →
        (on_lock env st).2.1.unlock_mute_input = false) := by
  rcases hR : on_lock_role env st .eRender with ⟨resR, st1, tr1⟩
  have hspecR := on_lock_role_spec env st .eRender
  rw [hR] at hspecR
  have hotherR := on_lock_role_flag_other env st .eRender .eCapture
    (by intro hc; cases hc)
  rw [hR] at hotherR
  cases resR with
  | error e =>
    have hcomp := on_lock_error_left env st e st1 tr1 hR
    refine ⟨?_, ?_, ?_, ?_⟩
    · intro h
      rw [hcomp] at h
      rcases hspecR with ⟨_, hflag, _⟩ | ⟨r, hres, _, _, _, hmem⟩
      · left
        exact hflag.symm.trans h
      · right
        refine ⟨r, hres, ?_⟩
        rw [hcomp]
        exact hmem
    · intro h
      rw [hcomp] at h
      left
      exact hotherR.symm.trans h
    · intro hf r hres hfail
      rw [hcomp]
      have h2 := on_lock_role_flag_false_on_failure env st .eRender r hf
        hres hfail
      rw [hR] at h2
      exact h2
    · intro hf c hres hfail
      rw [hcomp]
      exact hotherR.trans hf
  | ok u =>
    cases u
    rcases hC : on_lock_role env st1 .eCapture with ⟨resC, st2, tr2⟩
    have hcomp : on_lock env st = (resC, st2, tr1 ++ tr2) := by
      rw [on_lock_ok_left env st st1 tr1 hR, hC]
    have hspecC := on_lock_role_spec env st1 .eCapture
    rw [hC] at hspecC
    have hotherC := on_lock_role_flag_other env st1 .eCapture .eRender
      (by intro hc; cases hc)
    rw [hC] at hotherC
    refine ⟨?_, ?_, ?_, ?_⟩
    · intro h
      rw [hcomp] at h
      have h1 : readFlag st1 .eRender = true := by
        rw [← hotherC]
        exact h
      rcases hspecR with ⟨_, hflag, _⟩ | ⟨r, hres, _, _, _, hmem⟩
      · left
        exact hflag.symm.trans h1
      · right
        refine ⟨r, hres, ?_⟩
        rw [hcomp]
        show Event.setMute r true ∈ tr1 ++ tr2
        exact List.mem_append_left tr2 hmem
    · intro h
      rw [hcomp] at h
      rcases hspecC with ⟨_, hflag, _⟩ | ⟨c, hres, _, _, _, hmem⟩
      · left
        have h1 : readFlag st1 .eCapture = true := hflag.symm.trans h
        exact hotherR.symm.trans h1
      · right
        refine ⟨c, hres, ?_⟩
        rw [hcomp]
        show Event.setMute c true ∈ tr1 ++ tr2
        exact List.mem_append_right tr1 hmem
    · intro hf r hres hfail
      rw [hcomp]
      have h2 := on_lock_role_flag_false_on_failure env st .eRender r hf
        hres hfail
      rw [hR] at h2
      show readFlag st2 .eRender = false
      rw [hotherC]
      exact h2
    · intro hf c hres hfail
      rw [hcomp]
      have h1 : readFlag st1 .eCapture = false := hotherR.trans hf
      have h2 := on_lock_role_flag_false_on_failure env st1 .eCapture c h1
        hres hfail
      rw [hC] at h2
      exact h2

/-- C10, witness at a concrete input: after a successful lock from the
all-unmuted initial state, the set output flag is explained by a
`SetMute(true)` on the resolved output device. -/
theorem C10_witness :
    initState.unlock_mute_output = true ∨
    ∃ r, goodEnv.defaultDevice .eRender = some r ∧
      Event.setMute r true ∈ (on_lock goodEnv initState).2.2 :=
  (C10_flag_only_after_mute goodEnv initState).1 (by decide)

